import Mathlib

/-!
Verification development for the WhatsApp AI sales-agent repository.

The definitions below are a shallow embedding of the JavaScript sources:
* `src/utils/intent.classifier.js` (intent table, classifier, handoff policy,
  admin-command parser),
* `src/handlers/message.handler.js` (inbound-message routing),
* `src/handlers/payment.handler.js` and `src/services/supabase.service.js`
  (payment approval and rate limiting),
* `src/services/waha.service.js` (`isProcessableMessage`).

JavaScript regular expressions are embedded with a small executable matcher
(`Rx`) covering exactly the constructs the source patterns use: literal
characters, alternation, character classes, `?`, `*`/`+` over character
classes, the word-boundary assertion `\b`, and the `^`/`$` anchors.  The
classifier lowercases its input and every source regex carries the `i` flag,
so patterns are written with lowercase literals and tested against the
lowercased text (ASCII-faithful).
-/

namespace AiSales

/-- Apostrophe character, used by the source regexes `i('ll|\s+will)` and
`don't`. -/
def apos : Char := Char.ofNat 39

/-- JavaScript `\w` (word character): `[A-Za-z0-9_]`. -/
def isWordChar (c : Char) : Bool := c.isAlpha || c.isDigit || c == '_'

/-- JavaScript `\s` (whitespace), restricted to the ASCII whitespace the
messages in the claims use. -/
def isWsChar (c : Char) : Bool := c == ' ' || c == '\t' || c == '\n' || c == '\r'

/-- ASCII lowercasing of one character (the `i`-flag-relevant fragment of
`toLowerCase`). -/
def charToLower (c : Char) : Char :=
  if 65 ≤ c.toNat ∧ c.toNat ≤ 90 then Char.ofNat (c.toNat + 32) else c

/-- JavaScript `s.toLowerCase()` (ASCII fragment), written over the
character list so that it evaluates inside the kernel. -/
def jsToLower (s : String) : String := String.mk (s.toList.map charToLower)

/-- JavaScript `s.trim()` (ASCII whitespace fragment). -/
def jsTrim (s : String) : String :=
  String.mk (((s.toList.dropWhile isWsChar).reverse.dropWhile isWsChar).reverse)

/-- Whitespace-separated words of a character list (accumulator holds the
current word reversed). -/
def wordsAux : List Char → List Char → List String
  | acc, [] => if acc.isEmpty then [] else [String.mk acc.reverse]
  | acc, c :: cs =>
    if isWsChar c then
      if acc.isEmpty then wordsAux [] cs
      else String.mk acc.reverse :: wordsAux [] cs
    else wordsAux (c :: acc) cs

/-- JavaScript `message.split(/\s+/)`: whitespace-separated words.  This
agrees with the JavaScript split on every string not starting with
whitespace (JavaScript would keep one leading empty fragment there), and
the admin-command parser only reaches the split after checking that the
message starts with a slash. -/
def jsSplitWs (s : String) : List String := wordsAux [] s.toList

/-- JavaScript `message.startsWith('/')`. -/
def startsWithSlash (s : String) : Bool :=
  match s.toList with
  | [] => false
  | c :: _ => c == '/'

/-- Executable regular-expression fragments: exactly the constructs used by
the patterns in `intent.classifier.js`.  Iteration (`*`, `+`) only ever
appears applied to a character class in the source, so it is embedded as
`starCls`. -/
inductive Rx where
  | eps
  | cls (p : Char → Bool)
  | seq (a b : Rx)
  | alt (a b : Rx)
  | opt (a : Rx)
  | starCls (p : Char → Bool)
  | wordB
  | eosAnchor

/-- Greedy-with-backtracking expansion of `p*`: every split of the input at a
prefix of characters satisfying `p`.  Each result is the previous character
and the remaining input at that split. -/
def starRun (p : Char → Bool) : Option Char → List Char → List (Option Char × List Char)
  | prev, [] => [(prev, [])]
  | prev, c :: cs => (prev, c :: cs) :: (if p c then starRun p (some c) cs else [])

/-- Word-boundary test between a previous character (`none` at the start of
the string) and the next character (`none` at the end). -/
def atBoundary (prev : Option Char) (cs : List Char) : Bool :=
  let before := match prev with | none => false | some c => isWordChar c
  let after := match cs with | [] => false | c :: _ => isWordChar c
  before != after

/-- Backtracking matcher: all ways `r` can consume a prefix of `cs`, each
result giving the character just before the remaining input together with
that remaining input. -/
def Rx.run : Rx → Option Char → List Char → List (Option Char × List Char)
  | .eps, prev, cs => [(prev, cs)]
  | .cls _, _, [] => []
  | .cls p, _, c :: cs => if p c then [(some c, cs)] else []
  | .seq a b, prev, cs => (a.run prev cs).flatMap (fun pc => b.run pc.1 pc.2)
  | .alt a b, prev, cs => a.run prev cs ++ b.run prev cs
  | .opt a, prev, cs => (prev, cs) :: a.run prev cs
  | .starCls p, prev, cs => starRun p prev cs
  | .wordB, prev, cs => if atBoundary prev cs then [(prev, cs)] else []
  | .eosAnchor, prev, cs => if cs.isEmpty then [(prev, cs)] else []

/-- Search for a match of `r` starting at any position of the input
(JavaScript `RegExp.test` semantics for an unanchored pattern). -/
def searchAux (r : Rx) : Option Char → List Char → Bool
  | prev, [] => !(r.run prev []).isEmpty
  | prev, c :: rest => !(r.run prev (c :: rest)).isEmpty || searchAux r (some c) rest

/-- A compiled pattern: `anchored` embeds a regex whose source starts with
`^` (tested at position 0 only; a trailing `$` is embedded as `eosAnchor`
inside the regex), `floating` an unanchored regex (tested at every
position). -/
inductive Pat where
  | anchored (r : Rx)
  | floating (r : Rx)

/-- JavaScript `pattern.test(text)`. -/
def Pat.test : Pat → String → Bool
  | .anchored r, s => !(r.run none s.toList).isEmpty
  | .floating r, s => searchAux r none s.toList

/-- Literal string as a regex. -/
def lit (s : String) : Rx :=
  s.toList.foldr (fun c r => Rx.seq (Rx.cls (fun x => x == c)) r) Rx.eps

/-- Alternation of a list of regexes (the list is nonempty at every use
site; the empty case is inert). -/
def rxAlt : List Rx → Rx
  | [] => Rx.eps
  | [r] => r
  | r :: rest => Rx.alt r (rxAlt rest)

/-- Alternation of literal words, `(w1|w2|...)`. -/
def alts (ws : List String) : Rx := rxAlt (ws.map lit)

/-- Regex `\s+`. -/
def sp1 : Rx := Rx.seq (Rx.cls isWsChar) (Rx.starCls isWsChar)

/-- Regex `\s*`. -/
def sp0 : Rx := Rx.starCls isWsChar

/-- Regex `[\s!.,]*`. -/
def punctStar : Rx :=
  Rx.starCls (fun c => isWsChar c || c == '!' || c == '.' || c == ',')

/-- Regex `\b`. -/
def wb : Rx := Rx.wordB

/-- Sequencing of a list of regexes. -/
def rseq (l : List Rx) : Rx := l.foldr Rx.seq Rx.eps

/-- Regex matching a single apostrophe. -/
def aposRx : Rx := Rx.cls (fun c => c == apos)

/-- Intent types enumeration (`INTENTS` in `intent.classifier.js`). -/
inductive Intent where
  | GREETING
  | SERVICE_INQUIRY
  | PRICING_INQUIRY
  | PAYMENT_CONFIRMATION
  | PAYMENT_INQUIRY
  | ORDER_INTENT
  | HUMAN_REQUEST
  | FAQ
  | FRUSTRATION
  | CONFIRMATION
  | REJECTION
  | OUT_OF_SCOPE
  | GENERAL_CHAT
deriving DecidableEq, Repr

/-- String value of an intent, as stored by `saveMessage`. -/
def intentName : Intent → String
  | .GREETING => "GREETING"
  | .SERVICE_INQUIRY => "SERVICE_INQUIRY"
  | .PRICING_INQUIRY => "PRICING_INQUIRY"
  | .PAYMENT_CONFIRMATION => "PAYMENT_CONFIRMATION"
  | .PAYMENT_INQUIRY => "PAYMENT_INQUIRY"
  | .ORDER_INTENT => "ORDER_INTENT"
  | .HUMAN_REQUEST => "HUMAN_REQUEST"
  | .FAQ => "FAQ"
  | .FRUSTRATION => "FRUSTRATION"
  | .CONFIRMATION => "CONFIRMATION"
  | .REJECTION => "REJECTION"
  | .OUT_OF_SCOPE => "OUT_OF_SCOPE"
  | .GENERAL_CHAT => "GENERAL_CHAT"

/-- An entry of the external service catalog (`knowledgeBase.services`). -/
structure Service where
  id : String
  name : String
deriving DecidableEq, Repr

/-- Modelled from the spec: the file `config/knowledge-base.json` required by
`intent.classifier.js` is not under `src/`.  Per the spec (sections 4.1 and
6), the static catalog provides two trigger-phrase wordlists — human-handoff
trigger phrases and frustration-indicator phrases — and the service list
(id, name, ...).  The classifier is parameterized over this data; concrete
instantiations used in closed theorems are flagged in their statements. -/
structure KnowledgeBase where
  human_handoff_triggers : List String
  frustration_indicators : List String
  services : List Service

/-- Words of a wordlist phrase joined by `\s+`, the effect of
`trigger.replace(/\s+/g, '\\s+')` on a literal phrase. -/
def joinSp1 : List String → Rx
  | [] => Rx.eps
  | [w] => lit w
  | w :: rest => Rx.seq (lit w) (Rx.seq sp1 (joinSp1 rest))

/-- Compilation of a wordlist phrase, per the source:
`new RegExp('\\b' + trigger.replace(/\s+/g, '\\s+') + '\\b', 'i')`.
The phrase is lowercased because the text it is tested against is lowercased
and the source regex carries the `i` flag. -/
def phrasePat (phrase : String) : Pat :=
  .floating (Rx.seq wb (Rx.seq (joinSp1 (jsSplitWs (jsToLower phrase))) wb))

/-- Pattern table `PATTERNS` of `intent.classifier.js`, in the enumeration
order of the source object literal.  Each pattern is annotated with the
original regex.  `OUT_OF_SCOPE` and `GENERAL_CHAT` have no entry, exactly as
in the source. -/
def PATTERNS (kb : KnowledgeBase) : List (Intent × List Pat) :=
  [ (.GREETING,
      [ -- /^(hi|hello|hey|assalam|salam|aoa|asc|good morning|good evening|good afternoon)[\s!.,]*$/i
        .anchored (rseq [alts ["hi", "hello", "hey", "assalam", "salam", "aoa", "asc",
          "good morning", "good evening", "good afternoon"], punctStar, Rx.eosAnchor]),
        -- /^(hi|hello|hey|salam|aoa)\s*(there|everyone|all)?[\s!.,]*$/i
        .anchored (rseq [alts ["hi", "hello", "hey", "salam", "aoa"], sp0,
          Rx.opt (alts ["there", "everyone", "all"]), punctStar, Rx.eosAnchor]),
        -- /^(assalam\s*o?\s*alaikum|wa\s*alaikum\s*assalam)[\s!.,]*$/i
        .anchored (rseq [Rx.alt
          (rseq [lit "assalam", sp0, Rx.opt (lit "o"), sp0, lit "alaikum"])
          (rseq [lit "wa", sp0, lit "alaikum", sp0, lit "assalam"]),
          punctStar, Rx.eosAnchor]),
        -- /^(kia|kya)\s*(hal|haal)[\s?]*$/i
        .anchored (rseq [alts ["kia", "kya"], sp0, alts ["hal", "haal"],
          Rx.starCls (fun c => isWsChar c || c == '?'), Rx.eosAnchor]) ]),
    (.SERVICE_INQUIRY,
      [ -- /\b(service|package|offer|plan|what\s+do\s+you\s+(do|offer))\b/i
        .floating (rseq [wb, Rx.alt (alts ["service", "package", "offer", "plan"])
          (rseq [lit "what", sp1, lit "do", sp1, lit "you", sp1, alts ["do", "offer"]]), wb]),
        -- /\b(tell|show|explain|describe)\s+(me\s+)?(about\s+)?(your\s+)?(service|package|offer)/i
        .floating (rseq [wb, alts ["tell", "show", "explain", "describe"], sp1,
          Rx.opt (rseq [lit "me", sp1]), Rx.opt (rseq [lit "about", sp1]),
          Rx.opt (rseq [lit "your", sp1]), alts ["service", "package", "offer"]]),
        -- /\b(basic|standard|premium)\s*(package|plan)?/i
        .floating (rseq [wb, alts ["basic", "standard", "premium"], sp0,
          Rx.opt (alts ["package", "plan"])]),
        -- /\b(kya|konsi)\s+(service|package)/i
        .floating (rseq [wb, alts ["kya", "konsi"], sp1, alts ["service", "package"]]),
        -- /\bservice\s*(list|details?|info)/i
        .floating (rseq [wb, lit "service", sp0,
          rxAlt [lit "list", rseq [lit "detail", Rx.opt (lit "s")], lit "info"]]),
        -- /\b(features?|include|kya\s+milega)\b/i
        .floating (rseq [wb, rxAlt [rseq [lit "feature", Rx.opt (lit "s")],
          lit "include", rseq [lit "kya", sp1, lit "milega"]], wb]) ]),
    (.PRICING_INQUIRY,
      [ -- /\b(price|pricing|cost|rate|kitne|kitna|charge|fee|paisa|rupee|rs\.?|pkr)\b/i
        .floating (rseq [wb, rxAlt [alts ["price", "pricing", "cost", "rate", "kitne",
          "kitna", "charge", "fee", "paisa", "rupee"],
          rseq [lit "rs", Rx.opt (lit ".")], lit "pkr"], wb]),
        -- /\b(how\s+much|kya\s+rate|konsi\s+price)\b/i
        .floating (rseq [wb, rxAlt [rseq [lit "how", sp1, lit "much"],
          rseq [lit "kya", sp1, lit "rate"], rseq [lit "konsi", sp1, lit "price"]], wb]),
        -- /\b(budget|affordable|cheap|expensive|discount)\b/i
        .floating (rseq [wb, alts ["budget", "affordable", "cheap", "expensive", "discount"], wb]) ]),
    (.PAYMENT_CONFIRMATION,
      [ -- /\b(paid|payment\s+(done|sent|kiya|kar\s*diya|ho\s*gaya))\b/i
        .floating (rseq [wb, Rx.alt (lit "paid")
          (rseq [lit "payment", sp1, rxAlt [lit "done", lit "sent", lit "kiya",
            rseq [lit "kar", sp0, lit "diya"], rseq [lit "ho", sp0, lit "gaya"]]]), wb]),
        -- /\b(bhej\s*(diya|di)|transfer\s*(kiya|kar\s*diya))\b/i
        .floating (rseq [wb, Rx.alt
          (rseq [lit "bhej", sp0, alts ["diya", "di"]])
          (rseq [lit "transfer", sp0, rxAlt [lit "kiya",
            rseq [lit "kar", sp0, lit "diya"]]]), wb]),
        -- /\b(screenshot|receipt|slip)\b/i
        .floating (rseq [wb, alts ["screenshot", "receipt", "slip"], wb]),
        -- /\b(check\s+kar(ein|o)?|verify\s+kar(ein|o)?)\b/i
        .floating (rseq [wb, Rx.alt
          (rseq [lit "check", sp1, lit "kar", Rx.opt (alts ["ein", "o"])])
          (rseq [lit "verify", sp1, lit "kar", Rx.opt (alts ["ein", "o"])]), wb]) ]),
    (.PAYMENT_INQUIRY,
      [ -- /\b(how\s+to\s+pay|payment\s+method|kaise\s+pay)\b/i
        .floating (rseq [wb, rxAlt [rseq [lit "how", sp1, lit "to", sp1, lit "pay"],
          rseq [lit "payment", sp1, lit "method"], rseq [lit "kaise", sp1, lit "pay"]], wb]),
        -- /\b(jazzcash|easypaisa|bank\s+transfer|account\s+(number|details?))\b/i
        .floating (rseq [wb, rxAlt [lit "jazzcash", lit "easypaisa",
          rseq [lit "bank", sp1, lit "transfer"],
          rseq [lit "account", sp1, rxAlt [lit "number",
            rseq [lit "detail", Rx.opt (lit "s")]]]], wb]),
        -- /\b(advance|deposit|token)\s*(payment|amount)?/i
        .floating (rseq [wb, alts ["advance", "deposit", "token"], sp0,
          Rx.opt (alts ["payment", "amount"])]),
        -- /\b(payment\s+details?|where\s+to\s+send|kahan\s+bhejun)\b/i
        .floating (rseq [wb, rxAlt [rseq [lit "payment", sp1, lit "detail", Rx.opt (lit "s")],
          rseq [lit "where", sp1, lit "to", sp1, lit "send"],
          rseq [lit "kahan", sp1, lit "bhejun"]], wb]) ]),
    (.ORDER_INTENT,
      [ -- /\b(order|book|buy|purchase|khareed|lena\s+hai|chahiye)\b/i
        .floating (rseq [wb, rxAlt [lit "order", lit "book", lit "buy", lit "purchase",
          lit "khareed", rseq [lit "lena", sp1, lit "hai"], lit "chahiye"], wb]),
        -- /\b(want\s+to\s+(order|buy|get)|mujhe\s+chahiye)\b/i
        .floating (rseq [wb, Rx.alt
          (rseq [lit "want", sp1, lit "to", sp1, alts ["order", "buy", "get"]])
          (rseq [lit "mujhe", sp1, lit "chahiye"]), wb]),
        -- /\b(proceed|confirm|finalize)\b/i
        .floating (rseq [wb, alts ["proceed", "confirm", "finalize"], wb]),
        -- /\b(i('ll|\s+will)\s+(take|get|order))\b/i
        .floating (rseq [wb, lit "i", Rx.alt (Rx.seq aposRx (lit "ll"))
          (Rx.seq sp1 (lit "will")), sp1, alts ["take", "get", "order"], wb]) ]),
    (.HUMAN_REQUEST, kb.human_handoff_triggers.map phrasePat),
    (.FRUSTRATION, kb.frustration_indicators.map phrasePat),
    (.CONFIRMATION,
      [ -- /^(yes|yeah|yep|ok|okay|sure|alright|theek|thik|haan|ji|hnji|bilkul|zaroor)[\s!.,]*$/i
        .anchored (rseq [alts ["yes", "yeah", "yep", "ok", "okay", "sure", "alright",
          "theek", "thik", "haan", "ji", "hnji", "bilkul", "zaroor"], punctStar, Rx.eosAnchor]),
        -- /\b(sounds?\s+good|perfect|great|done|agreed)\b/i
        .floating (rseq [wb, rxAlt [rseq [lit "sound", Rx.opt (lit "s"), sp1, lit "good"],
          lit "perfect", lit "great", lit "done", lit "agreed"], wb]) ]),
    (.REJECTION,
      [ -- /^(no|nope|nah|nahi|na|cancel|stop)[\s!.,]*$/i
        .anchored (rseq [alts ["no", "nope", "nah", "nahi", "na", "cancel", "stop"],
          punctStar, Rx.eosAnchor]),
        -- /\b(not\s+interested|don't\s+want|nahi\s+chahiye)\b/i
        .floating (rseq [wb, rxAlt [rseq [lit "not", sp1, lit "interested"],
          rseq [lit "don", aposRx, lit "t", sp1, lit "want"],
          rseq [lit "nahi", sp1, lit "chahiye"]], wb]) ]),
    (.FAQ,
      [ -- /\b(refund|money\s+back|cancel|cancellation)\b/i
        .floating (rseq [wb, rxAlt [lit "refund", rseq [lit "money", sp1, lit "back"],
          lit "cancel", lit "cancellation"], wb]),
        -- /\b(delivery|how\s+long|kitne\s+din|time\s+lagega)\b/i
        .floating (rseq [wb, rxAlt [lit "delivery", rseq [lit "how", sp1, lit "long"],
          rseq [lit "kitne", sp1, lit "din"], rseq [lit "time", sp1, lit "lagega"]], wb]),
        -- /\b(revision|change|modify|update|edit)\b/i
        .floating (rseq [wb, alts ["revision", "change", "modify", "update", "edit"], wb]),
        -- /\b(support|after\s+service|help)\b/i
        .floating (rseq [wb, rxAlt [lit "support",
          rseq [lit "after", sp1, lit "service"], lit "help"], wb]),
        -- /\b(sample|portfolio|example|previous\s+work)\b/i
        .floating (rseq [wb, rxAlt [lit "sample", lit "portfolio", lit "example",
          rseq [lit "previous", sp1, lit "work"]], wb]),
        -- /\b(guarantee|warranty)\b/i
        .floating (rseq [wb, alts ["guarantee", "warranty"], wb]) ]) ]

/-- Service name patterns `SERVICE_PATTERNS`: `knowledgeBase.services.map`
with the same whole-word phrase compilation as the wordlists. -/
structure ServicePattern where
  id : String
  name : String
  pattern : Pat

/-- Construction of `SERVICE_PATTERNS` from the catalog. -/
def SERVICE_PATTERNS (kb : KnowledgeBase) : List ServicePattern :=
  kb.services.map (fun s => ⟨s.id, s.name, phrasePat s.name⟩)

/-- The `message` argument of `classifyIntent` as a JavaScript value: the
null and undefined values, a string, or some other (non-string) value. -/
inductive JsArg where
  | jnull
  | jundef
  | jother
  | jstr (s : String)
deriving DecidableEq, Repr

/-- The guard `!message || typeof message !== 'string'` at the top of
`classifyIntent`: true for null, undefined and every non-string value, and
for the empty string (the only falsy string). -/
def jsFalsyOrNonString : JsArg → Bool
  | .jstr s => s == ""
  | _ => true

/-- String content of the argument (only read after the guard, where the
argument is a string). -/
def JsArg.str : JsArg → String
  | .jstr s => s
  | _ => ""

/-- The `context` argument of `classifyIntent` (only `context.hasMedia` is
read). -/
structure Ctx where
  hasMedia : Bool := false
deriving DecidableEq, Repr

/-- Metadata object of a classification result.  Fields absent on a given
path keep their default (`false` / `none` / `[]`), mirroring absent
properties of the JavaScript object.  `matchedPattern` stands for the
`pattern.toString()` stored by the source, identified here by the matched
intent and the index of the pattern in that intent's list. -/
structure Metadata where
  hasMedia : Bool := false
  allMatches : List Intent := []
  matchedPattern : Option (Intent × Nat) := none
  serviceId : Option String := none
  serviceName : Option String := none
  frustrated : Bool := false
deriving DecidableEq, Repr

/-- Classification result of `classifyIntent`. -/
structure Classification where
  intent : Intent
  confidence : ℚ
  metadata : Metadata
deriving DecidableEq, Repr

/-- Confidence heuristic `calculateConfidence(intent, message, pattern)`.
The JavaScript function also receives the matched pattern but never reads
it, so that argument is dropped here.  The sequence of `if` reassignments of
the source is mirrored by shadowing lets. -/
def calculateConfidence (intent : Intent) (message : String) : ℚ :=
  let confidence : ℚ := mkRat 7 10
  let confidence := if intent = .GREETING ∧ message.length < 20 then mkRat 95 100 else confidence
  let confidence := if intent = .HUMAN_REQUEST then mkRat 95 100 else confidence
  let confidence := if intent = .FRUSTRATION then mkRat 9 10 else confidence
  let confidence := if intent = .PAYMENT_CONFIRMATION then mkRat 85 100 else confidence
  let confidence := if intent = .SERVICE_INQUIRY ∧ message.length > 30 then mkRat 75 100 else confidence
  confidence

/-- One entry of the `matches` array built by `classifyIntent`:
`{intent, pattern: pattern.toString(), confidence}`, the pattern identified
by its index in the intent's pattern list. -/
structure MatchRec where
  intent : Intent
  patternIdx : Nat
  confidence : ℚ
deriving DecidableEq, Repr

/-- The double loop over `PATTERNS`: for each intent, the first matching
pattern (the source breaks after one match per intent) yields a match
record. -/
def collectMatches (kb : KnowledgeBase) (cleanMessage : String) : List MatchRec :=
  (PATTERNS kb).filterMap (fun e =>
    (e.2.findIdx? (fun p => p.test cleanMessage)).map
      (fun i => ⟨e.1, i, calculateConfidence e.1 cleanMessage⟩))

/-- Insertion step of a stable descending sort on confidence. -/
def insertByConfidence (m : MatchRec) : List MatchRec → List MatchRec
  | [] => [m]
  | x :: xs =>
      if x.confidence ≤ m.confidence then m :: x :: xs else x :: insertByConfidence m xs

/-- Stable descending sort on confidence, the effect of
`matches.sort((a, b) => b.confidence - a.confidence)` (ECMAScript sort is
stable; ties keep enumeration order). -/
def sortByConfidenceDesc : List MatchRec → List MatchRec
  | [] => []
  | x :: xs => insertByConfidence x (sortByConfidenceDesc xs)

/-- The classifier `classifyIntent(message, context)` of
`intent.classifier.js`, parameterized by the knowledge base the source
loads from `config/knowledge-base.json`.

Matching on the sorted match list combines the source's
`matches.length === 0` early return (the sort of the empty list is empty)
with `matches[0]` selection after the in-place sort; `allMatches` maps over
the sorted array, as in the source. -/
def classifyIntent (kb : KnowledgeBase) (message : JsArg) (context : Ctx) : Classification :=
  if jsFalsyOrNonString message then
    { intent := .GENERAL_CHAT, confidence := mkRat 5 10, metadata := {} }
  else
    let cleanMessage := jsToLower (jsTrim message.str)
    if context.hasMedia then
      { intent := .PAYMENT_CONFIRMATION, confidence := mkRat 85 100, metadata := { hasMedia := true } }
    else
      match sortByConfidenceDesc (collectMatches kb cleanMessage) with
      | [] => { intent := .GENERAL_CHAT, confidence := mkRat 6 10, metadata := {} }
      | bestMatch :: rest =>
        let sorted := bestMatch :: rest
        let serviceMatch := (SERVICE_PATTERNS kb).find? (fun sp => sp.pattern.test cleanMessage)
        let result : Classification :=
          { intent := bestMatch.intent
            confidence := bestMatch.confidence
            metadata := { allMatches := sorted.map (fun m => m.intent)
                          matchedPattern := some (bestMatch.intent, bestMatch.patternIdx) } }
        let result :=
          match serviceMatch with
          | none => result
          | some sp =>
            let md := { result.metadata with serviceId := some sp.id, serviceName := some sp.name }
            if bestMatch.intent = .GENERAL_CHAT then
              { result with metadata := md, intent := .SERVICE_INQUIRY, confidence := mkRat 8 10 }
            else
              { result with metadata := md }
        if bestMatch.intent = .FRUSTRATION then
          { result with
            intent := .HUMAN_REQUEST
            confidence := mkRat 9 10
            metadata := { result.metadata with frustrated := true } }
        else
          result

/-- Handoff decision returned by `shouldHandoff`. -/
structure HandoffDecision where
  handoff : Bool
  reason : Option String
  priority : Option String
deriving DecidableEq, Repr

/-- The handoff policy `shouldHandoff(message, classification)`.  The
`message` argument is received but never read, exactly as in the source;
the function is pure by construction. -/
def shouldHandoff (_message : JsArg) (classification : Classification) : HandoffDecision :=
  if classification.intent = .HUMAN_REQUEST then
    { handoff := true
      reason := some (if classification.metadata.frustrated then
        "Customer frustration detected" else "Customer requested human agent")
      priority := some (if classification.metadata.frustrated then "high" else "normal") }
  else if classification.intent = .OUT_OF_SCOPE then
    { handoff := true, reason := some "Query outside knowledge base", priority := some "normal" }
  else
    { handoff := false, reason := none, priority := none }

/-- Parsed admin command (`parseAdminCommand` result object). -/
structure AdminCommand where
  command : String
  action : String
  id : Option String
  args : List String
  raw : String
deriving DecidableEq, Repr

/-- The `commands` lookup table inside `parseAdminCommand`: command string to
`(action, requiresId)`. -/
def adminCommandTable (cmd : String) : Option (String × Bool) :=
  if cmd = "/approve" then some ("approve_payment", true)
  else if cmd = "/reject" then some ("reject_payment", true)
  else if cmd = "/resume_ai" then some ("resume_ai", true)
  else if cmd = "/resumeai" then some ("resume_ai", true)
  else if cmd = "/assign" then some ("assign_handoff", true)
  else if cmd = "/resolve" then some ("resolve_handoff", true)
  else if cmd = "/status" then some ("get_status", false)
  else if cmd = "/stats" then some ("get_stats", false)
  else if cmd = "/help" then some ("admin_help", false)
  else none

/-- The admin-command parser `parseAdminCommand(message)`.  Returns `none`
both for messages that do not start with a slash (or are empty — the
`!message` guard) and for slash-commands absent from the command table. -/
def parseAdminCommand (message : String) : Option AdminCommand :=
  if message = "" ∨ startsWithSlash message = false then none
  else
    let parts := jsSplitWs message
    let command := jsToLower (parts.headD "")
    let args := parts.tail
    match adminCommandTable command with
    | none => none
    | some (action, _) =>
      some { command := command, action := action, id := args.head?, args := args, raw := message }

/-- Parsed inbound message, the relevant fields of the object built by
`wahaService.parseWebhookPayload`. -/
structure ParsedMessage where
  messageId : String
  chatId : String
  phoneNumber : String
  body : String
  hasMedia : Bool
  mediaType : String
  isGroup : Bool
deriving DecidableEq, Repr

/-- Validation `wahaService.isProcessableMessage(parsedMessage)`: rejects an
absent parse, group messages, and messages with neither body nor media. -/
def isProcessableMessage : Option ParsedMessage → Bool
  | none => false
  | some m =>
    if m.isGroup then false
    else if m.body = "" ∧ m.hasMedia = false then false
    else true

/-- One row of the `rate_limits` table. -/
structure RateRecord where
  message_count : Nat
  window_start : Int
deriving DecidableEq, Repr

/-- Rate-limit configuration (`config.rateLimit`), with the source defaults
of 60000 ms and 30 requests. -/
structure RateLimitConfig where
  windowMs : Int := 60000
  maxRequests : Nat := 30
deriving DecidableEq, Repr

/-- Rate-limit store: rows of the `rate_limits` table keyed by `chat_id`
(the column is UNIQUE, lookups use `.eq('chat_id', ...).single()`). -/
abbrev RateDb := List (String × RateRecord)

/-- Row lookup by chat id. -/
def lookupRate (db : RateDb) (chatId : String) : Option RateRecord :=
  (db.find? (fun e => e.1 = chatId)).map (fun e => e.2)

/-- Row update by chat id (`UPDATE ... WHERE chat_id = ...`). -/
def updateRate (db : RateDb) (chatId : String) (r : RateRecord) : RateDb :=
  db.map (fun e => if e.1 = chatId then (e.1, r) else e)

/-- The check-and-increment `supabaseService.checkRateLimit(chatId)`.  Time
is passed explicitly (`now`, milliseconds).  A missing row is inserted with
`message_count = 1`; the `window_start` column of a fresh row is the
database default `NOW()`.  An expired window (`window_start` strictly
earlier than `now - windowMs`) resets the count to 1 with a fresh window
start; at or above `maxRequests` the call refuses; otherwise the count is
incremented.  Returns the decision and the updated store. -/
def checkRateLimit (cfg : RateLimitConfig) (now : Int) (db : RateDb) (chatId : String) :
    Bool × RateDb :=
  let windowStart := now - cfg.windowMs
  match lookupRate db chatId with
  | none => (true, db ++ [(chatId, { message_count := 1, window_start := now })])
  | some record =>
    if record.window_start < windowStart then
      (true, updateRate db chatId { message_count := 1, window_start := now })
    else if record.message_count ≥ cfg.maxRequests then
      (false, db)
    else
      (true, updateRate db chatId { record with message_count := record.message_count + 1 })

/-- One row of the `conversations` table (relevant columns). -/
structure Conversation where
  id : String
  chat_id : String
  phone_number : String
  status : String
deriving DecidableEq, Repr

/-- Lookup-or-insert `supabaseService.getOrCreateConversation`: an existing
row for the chat id is returned unchanged, otherwise a fresh row with
status `active` is inserted.  The database generates the id of a fresh row;
it is modelled deterministically from the chat id. -/
def getOrCreateConversation (convs : List Conversation) (chatId phoneNumber : String) :
    Conversation × List Conversation :=
  match convs.find? (fun c => c.chat_id = chatId) with
  | some existing => (existing, convs)
  | none =>
    let fresh : Conversation :=
      { id := "conv:" ++ chatId, chat_id := chatId, phone_number := phoneNumber, status := "active" }
    (fresh, convs ++ [fresh])

/-- Chat id of the operator, `config.admin.chatId` (a getter returning the
admin phone number suffixed with the WhatsApp individual-chat domain). -/
def adminChatIdOf (adminPhone : String) : String := adminPhone ++ "@c.us"

/-- Environment of one `handleIncomingMessage` invocation: configuration and
the persisted state it reads. -/
structure HandlerEnv where
  kb : KnowledgeBase
  adminPhone : String
  rateCfg : RateLimitConfig := {}
  now : Int
  conversations : List Conversation
  rateDb : RateDb

/-- The branch of `handleIncomingMessage` that handles a message, in the
guard order of the source: parse/processability check, rate limit,
conversation lookup, admin-command short-circuit (only for the configured
admin sender), human-handoff forwarding, and finally intent
classification.  The classifier is invoked only in the `classified`
branch. -/
inductive Route where
  | notProcessable
  | rateLimited
  | adminHandled (cmd : AdminCommand)
  | handoffForward
  | classified (c : Classification)
deriving DecidableEq, Repr

/-- Boolean test for the classification branch. -/
def Route.isClassified : Route → Bool
  | .classified _ => true
  | _ => false

/-- Branch selection of `handleIncomingMessage(webhookPayload)` on the
parsed message. -/
def route (env : HandlerEnv) (parsed : Option ParsedMessage) : Route :=
  if ¬ isProcessableMessage parsed then .notProcessable
  else
    match parsed with
    | none => .notProcessable
    | some m =>
      if (checkRateLimit env.rateCfg env.now env.rateDb m.chatId).1 = false then .rateLimited
      else
        let conv := (getOrCreateConversation env.conversations m.chatId m.phoneNumber).1
        match (if m.phoneNumber = env.adminPhone then parseAdminCommand m.body else none) with
        | some cmd => .adminHandled cmd
        | none =>
          if conv.status = "human_handoff" then .handoffForward
          else .classified (classifyIntent env.kb (.jstr m.body) { hasMedia := m.hasMedia })

/-- One `supabaseService.saveMessage` call (columns of the inserted row the
claims mention). -/
structure SavedMessage where
  conversation_id : String
  chat_id : String
  sender : String
  message : String
  message_type : String
  intent : Option String
deriving DecidableEq, Repr

/-- Return value of `handleIncomingMessage` (fields present on the paths
modelled here). -/
structure HandlerResult where
  processed : Bool
  reason : Option String := none
  handoff : Bool := false
  forwarded : Bool := false
  intent : Option Intent := none
  confidence : Option ℚ := none
deriving DecidableEq, Repr

/-- Observable outcome of one invocation: the returned object, the
`wahaService.sendText` calls `(chatId, text)` in order, and the
`saveMessage` calls in order. -/
structure Outcome where
  result : HandlerResult
  sends : List (String × String) := []
  saves : List SavedMessage := []
deriving DecidableEq, Repr

/-- External collaborators `handleIncomingMessage` delegates to after the
routing stages: `handleAdminCommand(command, chatId)`, the handoff
orchestrator `handoffHandler.initiateHandoff`, and the intent-specific
response generation `processIntent` (returning the reply text, if any).
They are spec section 6 collaborators, passed as parameters. -/
structure Collaborators where
  adminOutcome : AdminCommand → String → Outcome
  initiateHandoff : String → String → String → String → Conversation → Outcome
  respond : Classification → ParsedMessage → Conversation → Option String

/-- The rate-limit refusal reply of `handleIncomingMessage`. -/
def rateLimitReply : String :=
  "Aap bohot messages bhej rahe hain. Please thodi der wait karein. 🙏"

/-- The entry point `handleIncomingMessage`, by cases on `route` (which
mirrors the source's guard order).  The handoff-mode branch is
`handleHumanHandoffMessage`: it persists the customer message with intent
label `HUMAN_HANDOFF` and forwards the body to the operator chat inside the
notification text, without consulting the classifier.  The classification
branch persists the message with its intent, applies `shouldHandoff`, and
either initiates a handoff or lets `processIntent` produce the reply. -/
def handleIncomingMessage (env : HandlerEnv) (ext : Collaborators)
    (parsed : Option ParsedMessage) : Outcome :=
  match parsed, route env parsed with
  | _, .notProcessable =>
    { result := { processed := false, reason := some "Message not processable" } }
  | some m, .rateLimited =>
    { result := { processed := false, reason := some "Rate limit exceeded" }
      sends := [(m.chatId, rateLimitReply)] }
  | some m, .adminHandled cmd => ext.adminOutcome cmd m.chatId
  | some m, .handoffForward =>
    let conv := (getOrCreateConversation env.conversations m.chatId m.phoneNumber).1
    { result := { processed := true, handoff := true, forwarded := true }
      saves := [{ conversation_id := conv.id
                  chat_id := m.chatId
                  sender := "customer"
                  message := m.body
                  message_type := if m.hasMedia then m.mediaType else "text"
                  intent := some "HUMAN_HANDOFF" }]
      sends := [(adminChatIdOf env.adminPhone,
                 "📨 Message from " ++ m.phoneNumber ++ ":\n\n" ++ m.body)] }
  | some m, .classified c =>
    let conv := (getOrCreateConversation env.conversations m.chatId m.phoneNumber).1
    let customerSave : SavedMessage :=
      { conversation_id := conv.id
        chat_id := m.chatId
        sender := "customer"
        message := m.body
        message_type := if m.hasMedia then m.mediaType else "text"
        intent := some (intentName c.intent) }
    let handoffCheck := shouldHandoff (.jstr m.body) c
    if handoffCheck.handoff then
      let h := ext.initiateHandoff m.chatId m.phoneNumber
        (handoffCheck.reason.getD "") (handoffCheck.priority.getD "") conv
      { h with saves := customerSave :: h.saves }
    else
      match ext.respond c m conv with
      | some response =>
        { result := { processed := true, intent := some c.intent, confidence := some c.confidence }
          sends := [(m.chatId, response)]
          saves := [customerSave,
                    { conversation_id := conv.id
                      chat_id := m.chatId
                      sender := "bot"
                      message := response
                      message_type := "text"
                      intent := some (intentName c.intent) }] }
      | none =>
        { result := { processed := true, intent := some c.intent, confidence := some c.confidence }
          saves := [customerSave] }
  | none, _ =>
    { result := { processed := false, reason := some "Message not processable" } }

/-- One row of the `payments` table (columns the approval path touches). -/
structure Payment where
  id : String
  chat_id : String
  phone_number : String
  status : String
  approved_by : Option String := none
  approved_at : Option Int := none
deriving DecidableEq, Repr

/-- Lookup `supabaseService.getPayment(paymentId)`. -/
def getPayment (db : List Payment) (paymentId : String) : Option Payment :=
  db.find? (fun p => p.id = paymentId)

/-- Update `supabaseService.approvePayment(paymentId, approvedBy)`:
`UPDATE payments SET status = 'approved', approved_by, approved_at WHERE id
= paymentId`. -/
def dbApprovePayment (db : List Payment) (paymentId approvedBy : String) (now : Int) :
    List Payment :=
  db.map (fun p =>
    if p.id = paymentId then
      { p with status := "approved", approved_by := some approvedBy, approved_at := some now }
    else p)

/-- Outcome of `paymentHandler.approvePayment`: the returned object, the
`sendText` calls, and the payments table after the call. -/
structure PaymentOutcome where
  success : Bool
  error : Option String := none
  paymentId : Option String := none
  sends : List (String × String) := []
  db : List Payment
deriving DecidableEq, Repr

/-- The customer confirmation text sent on approval. -/
def paymentConfirmationMessage : String :=
  "🎉 *Payment Confirmed!*\n\nAapki payment verify ho gayi hai!\n\nHumari team jald hi aapke order par kaam shuru kar degi.\n\nKoi sawal ho to pooch sakte hain! 😊"

/-- The handler `paymentHandler.approvePayment(paymentId, approvedBy)`:
NotFound when the payment is absent, AlreadyProcessed when its status is not
`pending`, otherwise the one-way transition to `approved` with the
spreadsheet mirror and both notifications (the spreadsheet write is a best-
effort collaborator and is not part of the observable state here). -/
def approvePayment (adminChatId : String) (now : Int) (db : List Payment)
    (paymentId approvedBy : String) : PaymentOutcome :=
  match getPayment db paymentId with
  | none =>
    { success := false
      error := some "Payment not found"
      sends := [(adminChatId, "❌ Payment not found: " ++ paymentId)]
      db := db }
  | some payment =>
    if payment.status ≠ "pending" then
      { success := false
        error := some "Payment already processed"
        sends := [(adminChatId, "⚠️ Payment already " ++ payment.status)]
        db := db }
    else
      { success := true
        paymentId := some paymentId
        sends := [(payment.chat_id, paymentConfirmationMessage),
                  (adminChatId, "✅ Payment approved for " ++ payment.phone_number)]
        db := dbApprovePayment db paymentId approvedBy now }

/-- Modelled from the spec: a concrete knowledge-base instance for closed
theorems, since `config/knowledge-base.json` is not under `src/`.  The two
wordlists hold whole phrases of the kind the spec describes (handoff
trigger phrases, frustration indicator phrases) and the catalog a service
list with ids and names; the classifier itself never depends on the
particular words. -/
def kbInst : KnowledgeBase :=
  { human_handoff_triggers := ["human agent", "talk to human", "real person"]
    frustration_indicators := ["bakwas", "useless", "waste of time"]
    services := [⟨"logo-design", "Logo Design"⟩, ⟨"web-development", "Web Development"⟩] }

/-- Repeated `checkRateLimit` calls for one chat at one timestamp: the store
and the list of decisions after `n` messages. -/
def rateSeq (cfg : RateLimitConfig) (now : Int) (chatId : String) : Nat → RateDb × List Bool
  | 0 => ([], [])
  | n + 1 =>
    let s := rateSeq cfg now chatId n
    let r := checkRateLimit cfg now s.1 chatId
    (r.2, s.2 ++ [r.1])

/-- Trivial collaborator instance for closed theorems about
`handleIncomingMessage`. -/
def extInst : Collaborators :=
  { adminOutcome := fun _ _ => { result := { processed := true } }
    initiateHandoff := fun _ _ _ _ _ => { result := { processed := true, handoff := true } }
    respond := fun _ _ _ => none }

/-- Handler environment for the admin slash-command scenario: the sender is
the configured admin (source default phone number), no conversation exists
yet, the rate-limit store is empty. -/
def envAdmin : HandlerEnv :=
  { kb := kbInst
    adminPhone := "923001234567"
    now := 0
    conversations := []
    rateDb := [] }

/-- Inbound admin message whose body is an unrecognized slash-command. -/
def msgUnknownCmd : ParsedMessage :=
  { messageId := "m1"
    chatId := "923001234567@c.us"
    phoneNumber := "923001234567"
    body := "/foo bar"
    hasMedia := false
    mediaType := "chat"
    isGroup := false }

/-- Handler environment whose only conversation is in `human_handoff`
status. -/
def envHandoff : HandlerEnv :=
  { kb := kbInst
    adminPhone := "923001234567"
    now := 0
    conversations := [{ id := "c1", chat_id := "923008888777@c.us",
                        phone_number := "923008888777", status := "human_handoff" }]
    rateDb := [] }

/-- Customer message arriving on the handed-off conversation. -/
def msgHandoff : ParsedMessage :=
  { messageId := "m2"
    chatId := "923008888777@c.us"
    phoneNumber := "923008888777"
    body := "koi jawab do please"
    hasMedia := false
    mediaType := "chat"
    isGroup := false }

/-- Handler environment whose rate-limit store already holds a chat at the
ceiling inside the current window. -/
def envRate : HandlerEnv :=
  { kb := kbInst
    adminPhone := "923001234567"
    now := 0
    conversations := []
    rateDb := [("923008888777@c.us", { message_count := 30, window_start := 0 })] }

/-- Message from the rate-limited chat. -/
def msgRate : ParsedMessage :=
  { messageId := "m3"
    chatId := "923008888777@c.us"
    phoneNumber := "923008888777"
    body := "hello"
    hasMedia := false
    mediaType := "chat"
    isGroup := false }

/-- A pending payment row. -/
def payInst : Payment :=
  { id := "p1"
    chat_id := "923008888777@c.us"
    phone_number := "923008888777"
    status := "pending" }

/-! ## Helper lemmas -/

/-- Insertion into the stable sort preserves the members. -/
theorem mem_insertByConfidence {x m : MatchRec} :
    ∀ {l : List MatchRec}, x ∈ insertByConfidence m l ↔ x = m ∨ x ∈ l := by
  intro l
  induction l with
  | nil => simp [insertByConfidence]
  | cons a as ih =>
    simp only [insertByConfidence]
    split
    · simp
    · simp only [List.mem_cons, ih]
      tauto

/-- The stable sort preserves the members. -/
theorem mem_sortByConfidenceDesc {x : MatchRec} :
    ∀ {l : List MatchRec}, x ∈ sortByConfidenceDesc l ↔ x ∈ l := by
  intro l
  induction l with
  | nil => simp [sortByConfidenceDesc]
  | cons a as ih =>
    simp only [sortByConfidenceDesc, mem_insertByConfidence, ih, List.mem_cons]

/-- Shape of a match record produced by the pattern loop: its intent is one
of the table's keys (never `OUT_OF_SCOPE` or `GENERAL_CHAT`) and its
confidence comes from the heuristic table. -/
theorem collectMatches_shape {kb : KnowledgeBase} {s : String} {m : MatchRec}
    (h : m ∈ collectMatches kb s) :
    m.intent ≠ .OUT_OF_SCOPE ∧ m.intent ≠ .GENERAL_CHAT ∧
      m.confidence = calculateConfidence m.intent s := by
  simp only [collectMatches, List.mem_filterMap] at h
  obtain ⟨e, he, hm⟩ := h
  rw [Option.map_eq_some'] at hm
  obtain ⟨i, -, hmk⟩ := hm
  have hint : m.intent = e.1 := by rw [← hmk]
  have hconf : m.confidence = calculateConfidence e.1 s := by rw [← hmk]
  simp only [PATTERNS, List.mem_cons, List.mem_singleton] at he
  rcases he with rfl | rfl | rfl | rfl | rfl | rfl | rfl | rfl | rfl | rfl | rfl | he
  all_goals refine ⟨?_, ?_, ?_⟩ <;> simp_all

/-- The confidence heuristic never yields 0.8. -/
theorem calculateConfidence_avoids_upgrade : ∀ (i : Intent) (s : String),
    calculateConfidence i s ≠ mkRat 8 10 := by
  intro i s
  unfold calculateConfidence
  repeat' split
  all_goals norm_num

/-- Exhaustive description of a classification result: the falsy-guard
default, the attachment short-circuit, the no-match default, or a result
built from the best pattern match (kept as is, upgraded to SERVICE_INQUIRY
when the best match was GENERAL_CHAT, or escalated from FRUSTRATION to
HUMAN_REQUEST). -/
theorem classifyIntent_result (kb : KnowledgeBase) (msg : JsArg) (ctx : Ctx) :
    classifyIntent kb msg ctx = ⟨.GENERAL_CHAT, mkRat 5 10, {}⟩ ∨
    classifyIntent kb msg ctx = ⟨.PAYMENT_CONFIRMATION, mkRat 85 100, { hasMedia := true }⟩ ∨
    classifyIntent kb msg ctx = ⟨.GENERAL_CHAT, mkRat 6 10, {}⟩ ∨
    (∃ best, best ∈ collectMatches kb (jsToLower (jsTrim msg.str)) ∧
      ((best.intent ≠ .FRUSTRATION ∧
          (classifyIntent kb msg ctx).intent = best.intent ∧
          (classifyIntent kb msg ctx).confidence = best.confidence) ∨
       (best.intent = .GENERAL_CHAT ∧
          (classifyIntent kb msg ctx).intent = .SERVICE_INQUIRY ∧
          (classifyIntent kb msg ctx).confidence = mkRat 8 10) ∨
       (best.intent = .FRUSTRATION ∧
          (classifyIntent kb msg ctx).intent = .HUMAN_REQUEST ∧
          (classifyIntent kb msg ctx).confidence = mkRat 9 10))) := by
  simp only [classifyIntent]
  split
  · exact Or.inl rfl
  split
  · exact Or.inr (Or.inl rfl)
  cases hs : sortByConfidenceDesc (collectMatches kb (jsToLower (jsTrim msg.str))) with
  | nil => exact Or.inr (Or.inr (Or.inl rfl))
  | cons best rest =>
    have hmem : best ∈ collectMatches kb (jsToLower (jsTrim msg.str)) :=
      mem_sortByConfidenceDesc.mp (by rw [hs]; exact List.mem_cons_self _ _)
    refine Or.inr (Or.inr (Or.inr ⟨best, hmem, ?_⟩))
    by_cases hfr : best.intent = .FRUSTRATION
    · exact Or.inr (Or.inr ⟨hfr, by simp [hfr], by simp [hfr]⟩)
    · by_cases hgc : best.intent = .GENERAL_CHAT
      · cases hfind : (SERVICE_PATTERNS kb).find? (fun sp => sp.pattern.test (jsToLower (jsTrim msg.str))) with
        | none => exact Or.inl ⟨hfr, by simp [hfind, hfr], by simp [hfind, hfr]⟩
        | some sp =>
          exact Or.inr (Or.inl ⟨hgc, by simp [hfind, hfr, hgc], by simp [hfind, hfr, hgc]⟩)
      · cases hfind : (SERVICE_PATTERNS kb).find? (fun sp => sp.pattern.test (jsToLower (jsTrim msg.str))) with
        | none => exact Or.inl ⟨hfr, by simp [hfind, hfr], by simp [hfind, hfr]⟩
        | some sp => exact Or.inl ⟨hfr, by simp [hfind, hfr, hgc], by simp [hfind, hfr, hgc]⟩

/-! ## Claims -/

/-- C10: for every message argument that is null, undefined, empty, or not
a string, `classifyIntent` returns GENERAL_CHAT with confidence 0.5 and
empty metadata, regardless of context — in particular also when
`context.hasMedia` is true, because this guard runs before the attachment
short-circuit. -/
theorem classifyIntent_falsy_guard_first :
    ∀ (kb : KnowledgeBase) (ctx : Ctx),
      classifyIntent kb .jnull ctx = ⟨.GENERAL_CHAT, mkRat 5 10, {}⟩ ∧
      classifyIntent kb .jundef ctx = ⟨.GENERAL_CHAT, mkRat 5 10, {}⟩ ∧
      classifyIntent kb .jother ctx = ⟨.GENERAL_CHAT, mkRat 5 10, {}⟩ ∧
      classifyIntent kb (.jstr "") ctx = ⟨.GENERAL_CHAT, mkRat 5 10, {}⟩ := by
  intro kb ctx
  exact ⟨rfl, rfl, rfl, rfl⟩

/-- C1 (counterexample): with the attachment flag set but an empty (or
absent) body, `classifyIntent` hits the falsy guard first and returns
GENERAL_CHAT at 0.5 — not PAYMENT_CONFIRMATION as the claim states for
"an empty or absent body". -/
theorem media_empty_body_counterexample :
    classifyIntent kbInst (.jstr "") { hasMedia := true } = ⟨.GENERAL_CHAT, mkRat 5 10, {}⟩ ∧
    classifyIntent kbInst .jnull { hasMedia := true } = ⟨.GENERAL_CHAT, mkRat 5 10, {}⟩ ∧
    (classifyIntent kbInst (.jstr "") { hasMedia := true }).intent ≠ .PAYMENT_CONFIRMATION := by
  exact ⟨rfl, rfl, by decide⟩

/-- C1 (amended): for every input whose body is a nonempty string and whose
context has the attachment flag set, `classifyIntent` short-circuits to
PAYMENT_CONFIRMATION with confidence 0.85 and metadata `hasMedia = true`,
regardless of the text. -/
theorem media_shortcircuit (kb : KnowledgeBase) (s : String) (ctx : Ctx)
    (hbody : s ≠ "") (hmedia : ctx.hasMedia = true) :
    classifyIntent kb (.jstr s) ctx =
      ⟨.PAYMENT_CONFIRMATION, mkRat 85 100, { hasMedia := true }⟩ := by
  simp [classifyIntent, jsFalsyOrNonString, hbody, hmedia]

/-- Witness for `media_shortcircuit` at body "x". -/
theorem media_shortcircuit_witness :
    ("x" : String) ≠ "" ∧ ({ hasMedia := true } : Ctx).hasMedia = true ∧
    classifyIntent kbInst (.jstr "x") { hasMedia := true } =
      ⟨.PAYMENT_CONFIRMATION, mkRat 85 100, { hasMedia := true }⟩ :=
  ⟨by decide, rfl, media_shortcircuit kbInst "x" { hasMedia := true } (by decide) rfl⟩

/-- C5: `shouldHandoff` yields handoff with priority "high" exactly for
HUMAN_REQUEST with `metadata.frustrated`, handoff with priority "normal"
exactly for HUMAN_REQUEST without frustration or OUT_OF_SCOPE, and no
handoff for every other intent; the decision does not depend on the message
argument (the function is pure, a Lean function of its two arguments). -/
theorem shouldHandoff_characterization :
    ∀ (msg msg' : JsArg) (c : Classification),
      ((shouldHandoff msg c).handoff = true ∧ (shouldHandoff msg c).priority = some "high" ↔
        c.intent = .HUMAN_REQUEST ∧ c.metadata.frustrated = true) ∧
      ((shouldHandoff msg c).handoff = true ∧ (shouldHandoff msg c).priority = some "normal" ↔
        ((c.intent = .HUMAN_REQUEST ∧ c.metadata.frustrated = false) ∨
          c.intent = .OUT_OF_SCOPE)) ∧
      ((shouldHandoff msg c).handoff = false ↔
        (c.intent ≠ .HUMAN_REQUEST ∧ c.intent ≠ .OUT_OF_SCOPE)) ∧
      shouldHandoff msg c = shouldHandoff msg' c := by
  intro msg msg' c
  unfold shouldHandoff
  by_cases h1 : c.intent = .HUMAN_REQUEST
  · by_cases h2 : c.metadata.frustrated = true
    · simp [h1, h2]
    · simp at h2
      simp [h1, h2]
  · by_cases h3 : c.intent = .OUT_OF_SCOPE
    · simp [h1, h3]
    · simp [h1, h3]

/-- C9: `classifyIntent` never returns OUT_OF_SCOPE (no patterns are
registered for OUT_OF_SCOPE or GENERAL_CHAT in the table), so the
OUT_OF_SCOPE branch of `shouldHandoff` — the one whose reason is "Query
outside knowledge base" — is unreachable for any classification the
classifier produces. -/
theorem classifyIntent_never_out_of_scope :
    ∀ (kb : KnowledgeBase) (msg : JsArg) (ctx : Ctx),
      (classifyIntent kb msg ctx).intent ≠ .OUT_OF_SCOPE ∧
      (shouldHandoff msg (classifyIntent kb msg ctx)).reason ≠
        some "Query outside knowledge base" := by
  intro kb msg ctx
  have h1 : (classifyIntent kb msg ctx).intent ≠ .OUT_OF_SCOPE := by
    rcases classifyIntent_result kb msg ctx with h | h | h | ⟨best, hmem, hcase⟩
    · rw [h]; decide
    · rw [h]; decide
    · rw [h]; decide
    · have hb := (collectMatches_shape hmem).1
      rcases hcase with ⟨-, hi, -⟩ | ⟨-, hi, -⟩ | ⟨-, hi, -⟩ <;> rw [hi]
      · exact hb
      · decide
      · decide
  refine ⟨h1, ?_⟩
  unfold shouldHandoff
  split
  · split <;> simp
  all_goals simp_all

/-- C3 (counterexample): the text "human agent bakwas" matches a pattern
compiled from the frustration wordlist, yet — because it also matches a
human-handoff trigger, which carries the higher confidence 0.95 —
`classifyIntent` returns HUMAN_REQUEST at 0.95 with `frustrated` unset,
not confidence 0.9 with `frustrated = true` as the claim requires for
every frustration match.  Uses the spec-modelled `kbInst` wordlists. -/
theorem frustration_match_not_escalated_counterexample :
    (kbInst.frustration_indicators.map phrasePat).any
        (fun p => p.test "human agent bakwas") = true ∧
    classifyIntent kbInst (.jstr "human agent bakwas") {} =
      ⟨.HUMAN_REQUEST, mkRat 95 100,
        { allMatches := [.HUMAN_REQUEST, .FRUSTRATION]
          matchedPattern := some (.HUMAN_REQUEST, 0) }⟩ ∧
    (classifyIntent kbInst (.jstr "human agent bakwas") {}).metadata.frustrated = false ∧
    (classifyIntent kbInst (.jstr "human agent bakwas") {}).confidence ≠ mkRat 9 10 := by
  exact ⟨by decide, by decide, by decide, by decide⟩

/-- C3 (amended): when the winning (highest-confidence, ties broken by
enumeration order) match is FRUSTRATION, `classifyIntent` escalates it to
HUMAN_REQUEST with confidence forced to 0.9 and `metadata.frustrated =
true`; and FRUSTRATION is never the final intent of any classification. -/
theorem frustration_winner_escalates (kb : KnowledgeBase) (s : String) (ctx : Ctx)
    (best : MatchRec) (rest : List MatchRec)
    (hbody : s ≠ "") (hmedia : ctx.hasMedia = false)
    (hsort : sortByConfidenceDesc (collectMatches kb (jsToLower (jsTrim s))) = best :: rest)
    (hfr : best.intent = .FRUSTRATION) :
    (classifyIntent kb (.jstr s) ctx).intent = .HUMAN_REQUEST ∧
    (classifyIntent kb (.jstr s) ctx).confidence = mkRat 9 10 ∧
    (classifyIntent kb (.jstr s) ctx).metadata.frustrated = true ∧
    ∀ (kb' : KnowledgeBase) (msg : JsArg) (ctx' : Ctx),
      (classifyIntent kb' msg ctx').intent ≠ .FRUSTRATION := by
  have hnofr : ∀ (kb' : KnowledgeBase) (msg : JsArg) (ctx' : Ctx),
      (classifyIntent kb' msg ctx').intent ≠ .FRUSTRATION := by
    intro kb' msg ctx'
    rcases classifyIntent_result kb' msg ctx' with h | h | h | ⟨best', hmem', hcase'⟩
    · rw [h]; decide
    · rw [h]; decide
    · rw [h]; decide
    · rcases hcase' with ⟨hne, hi, -⟩ | ⟨-, hi, -⟩ | ⟨-, hi, -⟩ <;> rw [hi]
      · exact hne
      · decide
      · decide
  refine ⟨?_, ?_, ?_, hnofr⟩ <;>
    simp [classifyIntent, jsFalsyOrNonString, hbody, hmedia, JsArg.str, hsort, hfr]

/-- Witness for `frustration_winner_escalates` at text "bakwas" with the
spec-modelled wordlists: its only match is the frustration indicator. -/
theorem frustration_winner_escalates_witness :
    ("bakwas" : String) ≠ "" ∧
    sortByConfidenceDesc (collectMatches kbInst (jsToLower (jsTrim "bakwas"))) =
      [⟨.FRUSTRATION, 0, mkRat 9 10⟩] ∧
    (classifyIntent kbInst (.jstr "bakwas") {}).intent = .HUMAN_REQUEST ∧
    (classifyIntent kbInst (.jstr "bakwas") {}).confidence = mkRat 9 10 ∧
    (classifyIntent kbInst (.jstr "bakwas") {}).metadata.frustrated = true := by
  have h := frustration_winner_escalates kbInst "bakwas" {} ⟨.FRUSTRATION, 0, mkRat 9 10⟩ []
    (by decide) rfl (by decide) rfl
  exact ⟨by decide, by decide, h.1, h.2.1, h.2.2.1⟩

/-- C4: the claimed GENERAL_CHAT to SERVICE_INQUIRY upgrade never fires.
At the failing input "logo design" (a catalog service name of the
spec-modelled `kbInst` that matches no intent pattern) the classifier
returns GENERAL_CHAT at 0.6 with empty metadata — no `serviceId`, not
SERVICE_INQUIRY at 0.8 — because the zero-match early return precedes the
service scan; and in general no input ever yields confidence 0.8, since
GENERAL_CHAT never occurs among the pattern matches, making the upgrade
branch dead code. -/
theorem service_upgrade_dead_code :
    classifyIntent kbInst (.jstr "logo design") {} = ⟨.GENERAL_CHAT, mkRat 6 10, {}⟩ ∧
    (SERVICE_PATTERNS kbInst).any (fun sp => sp.pattern.test "logo design") = true ∧
    (∀ (kb : KnowledgeBase) (msg : JsArg) (ctx : Ctx),
      (classifyIntent kb msg ctx).confidence ≠ mkRat 8 10) := by
  refine ⟨by decide, by decide, ?_⟩
  intro kb msg ctx
  rcases classifyIntent_result kb msg ctx with h | h | h | ⟨best, hmem, hcase⟩
  · rw [h]; norm_num
  · rw [h]; norm_num
  · rw [h]; norm_num
  · obtain ⟨-, hno_gc, hconf⟩ := collectMatches_shape hmem
    rcases hcase with ⟨-, -, hc⟩ | ⟨hgc, -, -⟩ | ⟨-, -, hc⟩
    · rw [hc, hconf]
      exact calculateConfidence_avoids_upgrade _ _
    · exact absurd hgc hno_gc
    · rw [hc]; norm_num

/-- C2 (counterexample): the admin message "/foo bar" is a slash-command
that `parseAdminCommand` does not recognize, so it returns `none` and the
handler falls through to intent classification of that message — the
route is the classification branch, and no error reply (indeed no reply at
all, with collaborators that produce none) is sent. -/
theorem unknown_admin_command_counterexample :
    msgUnknownCmd.phoneNumber = envAdmin.adminPhone ∧
    startsWithSlash msgUnknownCmd.body = true ∧
    parseAdminCommand msgUnknownCmd.body = none ∧
    route envAdmin (some msgUnknownCmd) = .classified ⟨.GENERAL_CHAT, mkRat 6 10, {}⟩ ∧
    (handleIncomingMessage envAdmin extInst (some msgUnknownCmd)).sends = [] := by
  exact ⟨rfl, by decide, by decide, by decide, by decide⟩

/-- C2 (amended): a message from the configured admin whose body is a
slash-command not in the recognized table parses to `none` and falls
through to intent classification of that message; no error reply is issued
at this stage (the Unknown-command reply of `handleAdminCommand` is only
reachable for commands the parser does recognize). -/
theorem unknown_admin_command_falls_through (env : HandlerEnv) (m : ParsedMessage)
    (hproc : isProcessableMessage (some m) = true)
    (hrate : (checkRateLimit env.rateCfg env.now env.rateDb m.chatId).1 = true)
    (hadmin : m.phoneNumber = env.adminPhone)
    (hslash : startsWithSlash m.body = true)
    (hcmd : parseAdminCommand m.body = none)
    (hstatus : (getOrCreateConversation env.conversations m.chatId m.phoneNumber).1.status ≠
      "human_handoff") :
    route env (some m) =
      .classified (classifyIntent env.kb (.jstr m.body) { hasMedia := m.hasMedia }) := by
  rw [hadmin] at hstatus
  simp [route, hproc, hrate, hadmin, hcmd, hstatus]

/-- Witness for `unknown_admin_command_falls_through` at the concrete
admin scenario. -/
theorem unknown_admin_command_falls_through_witness :
    isProcessableMessage (some msgUnknownCmd) = true ∧
    (checkRateLimit envAdmin.rateCfg envAdmin.now envAdmin.rateDb msgUnknownCmd.chatId).1 = true ∧
    msgUnknownCmd.phoneNumber = envAdmin.adminPhone ∧
    startsWithSlash msgUnknownCmd.body = true ∧
    parseAdminCommand msgUnknownCmd.body = none ∧
    route envAdmin (some msgUnknownCmd) =
      .classified (classifyIntent envAdmin.kb (.jstr msgUnknownCmd.body)
        { hasMedia := msgUnknownCmd.hasMedia }) :=
  ⟨by decide, by decide, rfl, by decide, by decide,
    unknown_admin_command_falls_through envAdmin msgUnknownCmd (by decide) (by decide) rfl
      (by decide) (by decide) (by decide)⟩

/-- C8: an inbound, processable, within-rate-limit message from a
non-admin sender on a conversation in `human_handoff` status routes to the
forwarding branch — the classifier is not invoked on this path — and its
outcome persists the customer message (labelled HUMAN_HANDOFF), sends the
operator chat a notification carrying the body verbatim, and returns
`processed = true`. -/
theorem handoff_mode_forwards (env : HandlerEnv) (ext : Collaborators) (m : ParsedMessage)
    (hproc : isProcessableMessage (some m) = true)
    (hrate : (checkRateLimit env.rateCfg env.now env.rateDb m.chatId).1 = true)
    (hnotadmin : m.phoneNumber ≠ env.adminPhone)
    (hstatus : (getOrCreateConversation env.conversations m.chatId m.phoneNumber).1.status =
      "human_handoff") :
    route env (some m) = .handoffForward ∧
    (route env (some m)).isClassified = false ∧
    handleIncomingMessage env ext (some m) =
      { result := { processed := true, handoff := true, forwarded := true }
        saves := [{ conversation_id := (getOrCreateConversation env.conversations m.chatId
                      m.phoneNumber).1.id
                    chat_id := m.chatId
                    sender := "customer"
                    message := m.body
                    message_type := if m.hasMedia then m.mediaType else "text"
                    intent := some "HUMAN_HANDOFF" }]
        sends := [(adminChatIdOf env.adminPhone,
                   "📨 Message from " ++ m.phoneNumber ++ ":\n\n" ++ m.body)] } := by
  have hroute : route env (some m) = .handoffForward := by
    simp [route, hproc, hrate, hnotadmin, hstatus]
  refine ⟨hroute, by rw [hroute]; rfl, ?_⟩
  simp [handleIncomingMessage, hroute]

/-- Witness for `handoff_mode_forwards` at the concrete handed-off
conversation. -/
theorem handoff_mode_forwards_witness :
    isProcessableMessage (some msgHandoff) = true ∧
    msgHandoff.phoneNumber ≠ envHandoff.adminPhone ∧
    (getOrCreateConversation envHandoff.conversations msgHandoff.chatId
      msgHandoff.phoneNumber).1.status = "human_handoff" ∧
    route envHandoff (some msgHandoff) = .handoffForward ∧
    (handleIncomingMessage envHandoff extInst (some msgHandoff)).result.processed = true ∧
    (handleIncomingMessage envHandoff extInst (some msgHandoff)).sends =
      [("923001234567@c.us", "📨 Message from 923008888777:\n\n" ++ msgHandoff.body)] := by
  have h := handoff_mode_forwards envHandoff extInst msgHandoff (by decide) (by decide)
    (by decide) (by decide)
  exact ⟨by decide, by decide, by decide, h.1, by rw [h.2.2], by rw [h.2.2]; decide⟩

/-- C7: with the default window of 60000 ms and ceiling of 30 — (i) of 31
messages arriving on one chat inside one window, the first 30 pass and the
31st is refused; (ii) in general a chat whose record is inside the window
at the ceiling is refused with the store unchanged; (iii) a record whose
window has expired is accepted with the counter reset to 1 and a fresh
window start; and (iv) a refused message makes the handler send the
rate-limit reply and return unprocessed instead of processing. -/
theorem rate_limit_window_behavior :
    (rateSeq {} 0 "chat" 31).2 = List.replicate 30 true ++ [false] ∧
    (∀ (db : RateDb) (chatId : String) (now : Int) (r : RateRecord),
      lookupRate db chatId = some r →
      ¬ r.window_start < now - 60000 →
      r.message_count ≥ 30 →
      checkRateLimit {} now db chatId = (false, db)) ∧
    (∀ (db : RateDb) (chatId : String) (now : Int) (r : RateRecord),
      lookupRate db chatId = some r →
      r.window_start < now - 60000 →
      checkRateLimit {} now db chatId =
        (true, updateRate db chatId { message_count := 1, window_start := now })) ∧
    (∀ (env : HandlerEnv) (ext : Collaborators) (m : ParsedMessage),
      isProcessableMessage (some m) = true →
      (checkRateLimit env.rateCfg env.now env.rateDb m.chatId).1 = false →
      handleIncomingMessage env ext (some m) =
        { result := { processed := false, reason := some "Rate limit exceeded" }
          sends := [(m.chatId, rateLimitReply)] }) := by
  refine ⟨by decide, ?_, ?_, ?_⟩
  · intro db chatId now r hget hwin hcount
    simp [checkRateLimit, hget, hwin, hcount]
  · intro db chatId now r hget hwin
    simp [checkRateLimit, hget, hwin]
  · intro env ext m hproc hrate
    have hroute : route env (some m) = .rateLimited := by
      simp [route, hproc, hrate]
    simp [handleIncomingMessage, hroute]

/-- Witness for `rate_limit_window_behavior`: a chat at the ceiling inside
the window is refused; after expiry it is accepted and reset; a refused
message yields the rate-limit reply. -/
theorem rate_limit_window_behavior_witness :
    checkRateLimit {} 50000 [("c", ⟨30, 0⟩)] "c" = (false, [("c", ⟨30, 0⟩)]) ∧
    checkRateLimit {} 70000 [("c", ⟨30, 5⟩)] "c" =
      (true, updateRate [("c", ⟨30, 5⟩)] "c" { message_count := 1, window_start := 70000 }) ∧
    handleIncomingMessage envRate extInst (some msgRate) =
      { result := { processed := false, reason := some "Rate limit exceeded" }
        sends := [(msgRate.chatId, rateLimitReply)] } :=
  ⟨(rate_limit_window_behavior.2.1 [("c", ⟨30, 0⟩)] "c" 50000 ⟨30, 0⟩ (by decide) (by decide)
      (by decide)),
   (rate_limit_window_behavior.2.2.1 [("c", ⟨30, 5⟩)] "c" 70000 ⟨30, 5⟩ (by decide) (by decide)),
   (rate_limit_window_behavior.2.2.2 envRate extInst msgRate (by decide) (by decide))⟩

/-- Lookup after the status update: the updated row is found, with its
status, approver and timestamp stamped. -/
theorem getPayment_dbApprovePayment (db : List Payment) (pid a : String) (now : Int) :
    getPayment (dbApprovePayment db pid a now) pid =
      (getPayment db pid).map (fun p =>
        { p with status := "approved", approved_by := some a, approved_at := some now }) := by
  induction db with
  | nil => rfl
  | cons q rest ih =>
    by_cases hq : q.id = pid
    · simp [getPayment, dbApprovePayment, List.find?, hq]
    · simp only [getPayment, dbApprovePayment, List.map_cons] at ih ⊢
      rw [if_neg hq]
      rw [List.find?]
      rw [List.find?]
      simp only [hq, decide_False]
      exact ih

/-- C6: approving a pending payment succeeds and transitions it to
`approved` (stamping approver and timestamp); a second approve on the same
id fails with the AlreadyProcessed error and leaves the store unchanged;
approving an id with no payment fails with the NotFound error and leaves
the store unchanged. -/
theorem approve_payment_lifecycle (adminChat : String) (now now2 : Int)
    (db : List Payment) (pid a1 a2 : String) (p : Payment)
    (hget : getPayment db pid = some p) (hpending : p.status = "pending") :
    (approvePayment adminChat now db pid a1).success = true ∧
    (approvePayment adminChat now db pid a1).error = none ∧
    getPayment (approvePayment adminChat now db pid a1).db pid =
      some { p with status := "approved", approved_by := some a1, approved_at := some now } ∧
    (approvePayment adminChat now2 (approvePayment adminChat now db pid a1).db pid a2).success =
      false ∧
    (approvePayment adminChat now2 (approvePayment adminChat now db pid a1).db pid a2).error =
      some "Payment already processed" ∧
    (approvePayment adminChat now2 (approvePayment adminChat now db pid a1).db pid a2).db =
      (approvePayment adminChat now db pid a1).db ∧
    (∀ (db' : List Payment) (pid' a : String), getPayment db' pid' = none →
      (approvePayment adminChat now db' pid' a).success = false ∧
      (approvePayment adminChat now db' pid' a).error = some "Payment not found" ∧
      (approvePayment adminChat now db' pid' a).db = db') := by
  have h1 : approvePayment adminChat now db pid a1 =
      { success := true
        paymentId := some pid
        sends := [(p.chat_id, paymentConfirmationMessage),
                  (adminChat, "✅ Payment approved for " ++ p.phone_number)]
        db := dbApprovePayment db pid a1 now } := by
    simp [approvePayment, hget, hpending]
  have h2 : getPayment (dbApprovePayment db pid a1 now) pid =
      some { p with status := "approved", approved_by := some a1, approved_at := some now } := by
    rw [getPayment_dbApprovePayment, hget, Option.map_some']
  refine ⟨by rw [h1], by rw [h1], by rw [h1]; exact h2, ?_, ?_, ?_, ?_⟩
  · rw [h1]
    simp [approvePayment, h2]
  · rw [h1]
    simp [approvePayment, h2]
  · rw [h1]
    simp [approvePayment, h2]
  · intro db' pid' a hnone
    refine ⟨?_, ?_, ?_⟩ <;> simp [approvePayment, hnone]

/-- Witness for `approve_payment_lifecycle` on a one-row pending store. -/
theorem approve_payment_lifecycle_witness :
    getPayment [payInst] "p1" = some payInst ∧ payInst.status = "pending" ∧
    (approvePayment "923001234567@c.us" 100 [payInst] "p1" "923001234567").success = true ∧
    getPayment (approvePayment "923001234567@c.us" 100 [payInst] "p1" "923001234567").db "p1" =
      some { payInst with status := "approved", approved_by := some "923001234567",
                          approved_at := some 100 } ∧
    (approvePayment "923001234567@c.us" 200
        (approvePayment "923001234567@c.us" 100 [payInst] "p1" "923001234567").db
        "p1" "923001234567").error = some "Payment already processed" ∧
    (approvePayment "923001234567@c.us" 100 [] "missing" "923001234567").error =
      some "Payment not found" := by
  have h := approve_payment_lifecycle "923001234567@c.us" 100 200 [payInst] "p1"
    "923001234567" "923001234567" payInst (by decide) (by decide)
  exact ⟨by decide, by decide, h.1, h.2.2.1, h.2.2.2.2.1,
    (h.2.2.2.2.2.2 [] "missing" "923001234567" (by decide)).2.1⟩

end AiSales
